import Mathlib

/-!
Verification development for the Confluent Cloud Prometheus HTTP service
discovery repository.

The definitions below are a shallow embedding of the Go sources:

* `internal/cache/cache.go` — the TTL cache (`cacheSet`, `cacheGet`,
  `cacheDelete`); time is modelled as `Int` (UnixNano), the Go map as a
  function `String → Option (Item α)`.
* `internal/confluent/client.go` — the resource collector
  (`getAllResources` and its per-kind loops).  The network is modelled by a
  `Fetches` record giving the outcome of each upstream call; pagination is
  already folded into the per-call result, exactly as the `Get*` helpers
  return the fully accumulated list on success and an error otherwise.
* the handlers file — `DiscoveryHandler` (`discoveryHandler`) and
  `formatResponse`; label and parameter maps are association lists whose
  keys are pairwise distinct by construction.
* Go `encoding/json` marshalling of the response is modelled by
  `encodeResponse`: struct fields in declaration order, map keys sorted
  (string escaping is abstracted; it does not affect any equality proved
  here).
-/

/-! ## Cache (internal/cache/cache.go) -/

structure Item (α : Type) where
  value : α
  expiration : Int
deriving DecidableEq

def CacheMap (α : Type) : Type := String → Option (Item α)

/-- `Cache.Set`: stores `value` under `key` with expiration `now + duration`. -/
def cacheSet {α : Type} (c : CacheMap α) (key : String) (value : α)
    (now duration : Int) : CacheMap α :=
  fun k => if k = key then some ⟨value, now + duration⟩ else c k

/-- `Cache.Get`: returns the stored value unless absent or expired
(`time.Now().UnixNano() > item.Expiration`). -/
def cacheGet {α : Type} (c : CacheMap α) (key : String) (now : Int) : Option α :=
  match c key with
  | none => none
  | some item => if now > item.expiration then none else some item.value

/-- `Cache.Delete`: removes `key` from the map. -/
def cacheDelete {α : Type} (c : CacheMap α) (key : String) : CacheMap α :=
  fun k => if k = key then none else c k

/-! ## Confluent client data model (internal/confluent/client.go) -/

/-- A JSON value as stored in the Schema Registry `region` map
(`map[string]interface{}`): the code only distinguishes string values from
everything else (the `regionVal.(string)` type assertion). -/
inductive JVal where
  | str (s : String)
  | other
deriving DecidableEq

structure Environment where
  id : String
  name : String
deriving DecidableEq

structure KafkaClusterSpec where
  displayName : String
  availability : String
  cloud : String
  region : String
deriving DecidableEq

structure KafkaCluster where
  id : String
  spec : KafkaClusterSpec
  environmentId : String
deriving DecidableEq

structure SchemaRegistrySpec where
  displayName : String
  cloud : String
  region : List (String × JVal)
  package : String
deriving DecidableEq

structure SchemaRegistry where
  id : String
  spec : SchemaRegistrySpec
  environmentId : String
deriving DecidableEq

structure KsqlDBSpec where
  displayName : String
  cloud : String
  region : String
deriving DecidableEq

structure KsqlDB where
  id : String
  spec : KsqlDBSpec
  environmentId : String
deriving DecidableEq

structure ComputePoolSpec where
  displayName : String
  cloud : String
  region : String
deriving DecidableEq

structure ComputePool where
  id : String
  spec : ComputePoolSpec
  environmentId : String
deriving DecidableEq

structure Resource where
  id : String
  resourceType : String
  labels : List (String × String)
deriving DecidableEq

/-- Outcomes of the upstream HTTP calls made by the client: `envs` is the
result of `GetEnvironments`, the per-environment fields are the results of
`GetKafkaClusters`, `GetSchemaRegistries`, `GetKsqlDBs`, `GetComputePools`,
and `connectors eid cid` the result of `GetConnectors eid cid` (a flat name
list). -/
structure Fetches where
  envs : Except String (List Environment)
  kafkaClusters : String → Except String (List KafkaCluster)
  schemaRegistries : String → Except String (List SchemaRegistry)
  ksqlDBs : String → Except String (List KsqlDB)
  computePools : String → Except String (List ComputePool)
  connectors : String → String → Except String (List String)

/-- `cloudProvider := spec.Cloud; if cloudProvider == "" { cloudProvider = "unknown" }` -/
def cloudOrUnknown (cloud : String) : String :=
  if cloud = "" then "unknown" else cloud

/-- The Resource literal built for one Kafka cluster in `GetAllResources`. -/
def kafkaResource (env : Environment) (cluster : KafkaCluster) : Resource :=
  { id := cluster.id
    resourceType := "kafka"
    labels :=
      [("cloud_provider", cloudOrUnknown cluster.spec.cloud),
       ("environment_name", env.name),
       ("cluster_name", cluster.spec.displayName),
       ("region", cluster.spec.region)] }

/-- The Resource literal built for one connector of `cluster`; it inherits the
cluster's (defaulted) cloud provider and region. -/
def connectorResource (env : Environment) (cluster : KafkaCluster)
    (name : String) : Resource :=
  { id := name
    resourceType := "connector"
    labels :=
      [("cloud_provider", cloudOrUnknown cluster.spec.cloud),
       ("environment_name", env.name),
       ("connector_name", name),
       ("cluster_id", cluster.id),
       ("region", cluster.spec.region)] }

/-- The `regionStr` extraction for Schema Registry: look up `"id"` in the
region map; use it when it is a string, `"unknown"` when it is absent or of
another type. -/
def srRegionString (region : List (String × JVal)) : String :=
  match region.lookup "id" with
  | some (JVal.str s) => s
  | some JVal.other => "unknown"
  | none => "unknown"

/-- The Resource literal built for one Schema Registry instance (the
`package` label is added only when the field is non-empty). -/
def schemaRegistryResource (env : Environment) (sr : SchemaRegistry) : Resource :=
  { id := sr.id
    resourceType := "schema_registry"
    labels :=
      [("cloud_provider", cloudOrUnknown sr.spec.cloud),
       ("environment_name", env.name),
       ("name", sr.spec.displayName),
       ("region", srRegionString sr.spec.region)] ++
      (if sr.spec.package ≠ "" then [("package", sr.spec.package)] else []) }

/-- The Resource literal built for one KSQL database. -/
def ksqlResource (env : Environment) (k : KsqlDB) : Resource :=
  { id := k.id
    resourceType := "ksql"
    labels :=
      [("cloud_provider", cloudOrUnknown k.spec.cloud),
       ("environment_name", env.name),
       ("name", k.spec.displayName),
       ("region", k.spec.region)] }

/-- The Resource literal built for one compute pool. -/
def computePoolResource (env : Environment) (p : ComputePool) : Resource :=
  { id := p.id
    resourceType := "compute_pool"
    labels :=
      [("cloud_provider", cloudOrUnknown p.spec.cloud),
       ("environment_name", env.name),
       ("name", p.spec.displayName),
       ("region", p.spec.region)] }

/-- Body of the Kafka-cluster loop in `GetAllResources`: append the cluster's
own resource, then attempt the connector sub-fetch; on failure only log and
keep `acc`, on success append one connector resource per name. -/
def processKafkaCluster (w : Fetches) (env : Environment)
    (acc : List Resource) (cluster : KafkaCluster) : List Resource :=
  let acc1 := acc ++ [kafkaResource env cluster]
  match w.connectors env.id cluster.id with
  | Except.error _ => acc1
  | Except.ok names =>
      names.foldl (fun a n => a ++ [connectorResource env cluster n]) acc1

/-- Body of the environment loop in `GetAllResources`: the four per-kind
sub-fetches in source order (Kafka with nested connectors, Schema Registry,
KSQL, compute pools); each failing sub-fetch is logged and skipped. -/
def processEnvironment (w : Fetches) (acc : List Resource)
    (env : Environment) : List Resource :=
  let acc1 :=
    match w.kafkaClusters env.id with
    | Except.error _ => acc
    | Except.ok clusters => clusters.foldl (processKafkaCluster w env) acc
  let acc2 :=
    match w.schemaRegistries env.id with
    | Except.error _ => acc1
    | Except.ok srs =>
        srs.foldl (fun a sr => a ++ [schemaRegistryResource env sr]) acc1
  let acc3 :=
    match w.ksqlDBs env.id with
    | Except.error _ => acc2
    | Except.ok ks => ks.foldl (fun a k => a ++ [ksqlResource env k]) acc2
  match w.computePools env.id with
  | Except.error _ => acc3
  | Except.ok ps => ps.foldl (fun a p => a ++ [computePoolResource env p]) acc3

/-- `GetAllResources`: a failing environment listing is fatal (the wrapped
error is returned); otherwise every environment is processed in list order
and the accumulated catalog is returned with a nil error. -/
def getAllResources (w : Fetches) : Except String (List Resource) :=
  match w.envs with
  | Except.error e => Except.error ("failed to fetch environments: " ++ e)
  | Except.ok envs => Except.ok (envs.foldl (processEnvironment w) [])

/-! Structured (non-accumulator) form of the traversal, used to state the
ordering and isolation theorems. -/

/-- One Kafka cluster's contribution: its own resource followed by its
connector resources (none when the connector sub-fetch failed). -/
def clusterBlock (w : Fetches) (env : Environment)
    (cluster : KafkaCluster) : List Resource :=
  kafkaResource env cluster ::
    (match w.connectors env.id cluster.id with
     | Except.error _ => []
     | Except.ok names => names.map (connectorResource env cluster))

/-- The Kafka-and-connectors portion of one environment's contribution. -/
def kafkaBlock (w : Fetches) (env : Environment) : List Resource :=
  match w.kafkaClusters env.id with
  | Except.error _ => []
  | Except.ok clusters => clusters.flatMap (clusterBlock w env)

/-- The Schema Registry portion of one environment's contribution. -/
def srBlock (w : Fetches) (env : Environment) : List Resource :=
  match w.schemaRegistries env.id with
  | Except.error _ => []
  | Except.ok srs => srs.map (schemaRegistryResource env)

/-- The KSQL portion of one environment's contribution. -/
def ksqlBlock (w : Fetches) (env : Environment) : List Resource :=
  match w.ksqlDBs env.id with
  | Except.error _ => []
  | Except.ok ks => ks.map (ksqlResource env)

/-- The compute-pool portion of one environment's contribution. -/
def poolBlock (w : Fetches) (env : Environment) : List Resource :=
  match w.computePools env.id with
  | Except.error _ => []
  | Except.ok ps => ps.map (computePoolResource env)

/-- One environment's contribution to the catalog, in source traversal
order: Kafka (with nested connectors), Schema Registry, KSQL, compute pools. -/
def environmentBlock (w : Fetches) (env : Environment) : List Resource :=
  kafkaBlock w env ++ srBlock w env ++ ksqlBlock w env ++ poolBlock w env

/-! ## Discovery handler and formatter -/

structure Target where
  targets : List String
  labels : List (String × String)
  params : List (String × List String)
deriving DecidableEq

/-- `validPrefixPattern.MatchString`: the whole string consists of
alphanumerics and underscores (`^[a-zA-Z0-9_]*$`). -/
def prefixOk (s : String) : Bool :=
  s.data.all (fun c => c.isAlphanum || c = '_')

/-- `strings.HasSuffix(s, "_")`. -/
def hasSuffixUnderscore (s : String) : Bool :=
  s.data.getLast? = some '_'

/-- The prefix normalization done by `DiscoveryHandler`: a non-empty prefix
not already ending in an underscore gets one appended. -/
def normPfx (s : String) : String :=
  if s != "" && !hasSuffixUnderscore s then s ++ "_" else s

def splitCommaAux : List Char → List (List Char)
  | [] => [[]]
  | c :: rest =>
    match splitCommaAux rest with
    | [] => [[]]
    | h :: t => if c = ',' then [] :: h :: t else (c :: h) :: t

/-- `strings.Split(s, ",")`. -/
def splitComma (s : String) : List String :=
  (splitCommaAux s.data).map List.asString

/-- One iteration of the `formatResponse` loop: build a `Target` from one
resource (prefixed labels; the `switch resource.ResourceType` for `params`). -/
def formatTarget (targets : List String) (pfx : String) (r : Resource) : Target :=
  { targets := targets
    labels := r.labels.map (fun kv => (pfx ++ kv.1, kv.2))
    params :=
      match r.resourceType with
      | "kafka" => [("resource.kafka.id", [r.id])]
      | "schema_registry" => [("resource.schema_registry.id", [r.id])]
      | "ksql" => [("resource.ksql.id", [r.id])]
      | "compute_pool" => [("resource.compute_pool.id", [r.id])]
      | "connector" => [("resource.connector.id", [r.id])]
      | _ => [] }

/-- `formatResponse`: append one `Target` per resource, in catalog order. -/
def formatResponse (resources : List Resource) (targets : List String)
    (pfx : String) : List Target :=
  resources.foldl (fun acc r => acc ++ [formatTarget targets pfx r]) []

def cacheKey : String := "confluent_resources"

/-- The observable outcome of one `DiscoveryHandler` invocation: HTTP status,
the formatted groups (on 200), the cache state afterwards, and how many times
`GetAllResources` was invoked. -/
structure HandlerOutcome where
  status : Nat
  groups : Option (List Target)
  cacheAfter : CacheMap (List Resource)
  collectorRuns : Nat

/-- `DiscoveryHandler`, step for step: consult the cache, validate `targets`,
validate and normalize `prefix`, fetch-and-cache on a miss (500 on collector
error, no cache write), format and return 200 otherwise. -/
def discoveryHandler (w : Fetches) (c : CacheMap (List Resource))
    (now cacheDuration : Int) (targetsParam prefixParam : String) : HandlerOutcome :=
  let cached := cacheGet c cacheKey now
  let resourcesNeedFetching := cached.isNone
  if targetsParam = "" then
    { status := 400, groups := none, cacheAfter := c, collectorRuns := 0 }
  else
    let targetsList := splitComma targetsParam
    if prefixParam != "" && !prefixOk prefixParam then
      { status := 400, groups := none, cacheAfter := c, collectorRuns := 0 }
    else
      let pfx := normPfx prefixParam
      if resourcesNeedFetching then
        match getAllResources w with
        | Except.error _ =>
            { status := 500, groups := none, cacheAfter := c, collectorRuns := 1 }
        | Except.ok resources =>
            { status := 200
              groups := some (formatResponse resources targetsList pfx)
              cacheAfter := cacheSet c cacheKey resources now cacheDuration
              collectorRuns := 1 }
      else
        { status := 200
          groups := some (formatResponse (cached.getD []) targetsList pfx)
          cacheAfter := c
          collectorRuns := 0 }

/-! ## JSON encoding model (Go `encoding/json`) -/

def jstr (s : String) : String := "\"" ++ s ++ "\""

/-- `encoding/json` sorts map keys before emitting them. -/
def sortStrings (l : List String) : List String :=
  List.insertionSort (fun a b => a ≤ b) l

/-- A `map[string]string`, marshalled: sorted keys, each value fetched from
the map. -/
def encodeLabelObject (l : List (String × String)) : String :=
  "\x7b" ++
    String.intercalate ","
      ((sortStrings (l.map Prod.fst)).map
        (fun k => jstr k ++ ":" ++ jstr ((l.lookup k).getD ""))) ++
  "\x7d"

def encodeStringArray (l : List String) : String :=
  "[" ++ String.intercalate "," (l.map jstr) ++ "]"

/-- A `map[string][]string`, marshalled. -/
def encodeParamObject (l : List (String × List String)) : String :=
  "\x7b" ++
    String.intercalate ","
      ((sortStrings (l.map Prod.fst)).map
        (fun k => jstr k ++ ":" ++ encodeStringArray ((l.lookup k).getD []))) ++
  "\x7d"

/-- A `Target` struct, marshalled: fields in declaration order. -/
def encodeTarget (t : Target) : String :=
  "\x7b" ++ jstr "targets" ++ ":" ++ encodeStringArray t.targets ++ "," ++
    jstr "labels" ++ ":" ++ encodeLabelObject t.labels ++ "," ++
    jstr "params" ++ ":" ++ encodeParamObject t.params ++ "\x7d"

/-- The `[]Target` response body, marshalled. -/
def encodeResponse (ts : List Target) : String :=
  "[" ++ String.intercalate "," (ts.map encodeTarget) ++ "]"

/-! ## Structural lemmas about the collector and formatter -/

theorem foldl_append_singleton {α β : Type} (f : α → β) (l : List α) (acc : List β) :
    l.foldl (fun a x => a ++ [f x]) acc = acc ++ l.map f := by
  induction l generalizing acc with
  | nil => simp
  | cons x xs ih => simp [ih]

theorem processKafkaCluster_eq (w : Fetches) (env : Environment)
    (acc : List Resource) (cluster : KafkaCluster) :
    processKafkaCluster w env acc cluster = acc ++ clusterBlock w env cluster := by
  unfold processKafkaCluster clusterBlock
  cases h : w.connectors env.id cluster.id with
  | error e => simp
  | ok names => simp [foldl_append_singleton]

theorem foldl_processKafkaCluster (w : Fetches) (env : Environment)
    (clusters : List KafkaCluster) (acc : List Resource) :
    clusters.foldl (processKafkaCluster w env) acc
      = acc ++ clusters.flatMap (clusterBlock w env) := by
  induction clusters generalizing acc with
  | nil => simp
  | cons c cs ih => simp [processKafkaCluster_eq, ih]

theorem processEnvironment_eq (w : Fetches) (acc : List Resource)
    (env : Environment) :
    processEnvironment w acc env = acc ++ environmentBlock w env := by
  unfold processEnvironment environmentBlock kafkaBlock srBlock ksqlBlock poolBlock
  cases hk : w.kafkaClusters env.id <;>
    cases hs : w.schemaRegistries env.id <;>
      cases hq : w.ksqlDBs env.id <;>
        cases hp : w.computePools env.id <;>
          simp [foldl_processKafkaCluster, foldl_append_singleton]

theorem foldl_processEnvironment (w : Fetches) (envs : List Environment)
    (acc : List Resource) :
    envs.foldl (processEnvironment w) acc
      = acc ++ envs.flatMap (environmentBlock w) := by
  induction envs generalizing acc with
  | nil => simp
  | cons e es ih => simp [processEnvironment_eq, ih]

theorem getAllResources_ok (w : Fetches) (envs : List Environment)
    (h : w.envs = Except.ok envs) :
    getAllResources w = Except.ok (envs.flatMap (environmentBlock w)) := by
  unfold getAllResources
  rw [h]
  simp [foldl_processEnvironment]

theorem formatResponse_eq_map (resources : List Resource) (targets : List String)
    (pfx : String) :
    formatResponse resources targets pfx = resources.map (formatTarget targets pfx) := by
  unfold formatResponse
  simpa using foldl_append_singleton (formatTarget targets pfx) resources []

/-! ## Permutation invariance of the marshalled maps -/

theorem lookup_eq_of_perm {β : Type} (k : String) {l1 l2 : List (String × β)}
    (hp : l1.Perm l2) (hn : (l1.map Prod.fst).Nodup) :
    l1.lookup k = l2.lookup k := by
  induction hp with
  | nil => rfl
  | cons x p ih =>
      rcases x with ⟨xk, xv⟩
      simp only [List.map_cons, List.nodup_cons] at hn
      by_cases h : k = xk <;> simp_all [List.lookup]
  | swap x y l =>
      rcases x with ⟨xk, xv⟩
      rcases y with ⟨yk, yv⟩
      simp only [List.map_cons, List.nodup_cons, List.mem_cons] at hn
      have hne : yk ≠ xk := fun h => hn.1 (Or.inl h)
      by_cases h1 : k = yk
      · have hb0 : (k == yk) = true := by simp [h1]
        have hb1 : (k == xk) = false := by
          simp only [beq_eq_false_iff_ne]
          exact fun h => hne (h1 ▸ h)
        simp [List.lookup, hb0, hb1]
      · by_cases h2 : k = xk
        · have hb0 : (k == xk) = true := by simp [h2]
          have hb1 : (k == yk) = false := by simp [h1]
          simp [List.lookup, hb0, hb1]
        · have hb3 : (k == yk) = false := by simp [h1]
          have hb4 : (k == xk) = false := by simp [h2]
          simp [List.lookup, hb3, hb4]
  | trans p1 p2 ih1 ih2 =>
      have hn2 := (p1.map Prod.fst).nodup hn
      exact (ih1 hn).trans (ih2 hn2)

theorem sortStrings_eq_of_perm {l1 l2 : List String} (h : l1.Perm l2) :
    sortStrings l1 = sortStrings l2 := by
  apply List.eq_of_perm_of_sorted
    (((List.perm_insertionSort _ l1).trans h).trans
      (List.perm_insertionSort _ l2).symm)
    (List.sorted_insertionSort _ l1)
    (List.sorted_insertionSort _ l2)

theorem encodeLabelObject_eq_of_perm {l1 l2 : List (String × String)}
    (hp : l1.Perm l2) (hn : (l1.map Prod.fst).Nodup) :
    encodeLabelObject l1 = encodeLabelObject l2 := by
  have hfun : (fun k => jstr k ++ ":" ++ jstr ((l1.lookup k).getD ""))
      = (fun k => jstr k ++ ":" ++ jstr ((l2.lookup k).getD "")) := by
    funext k
    rw [lookup_eq_of_perm k hp hn]
  unfold encodeLabelObject
  rw [sortStrings_eq_of_perm (hp.map Prod.fst), hfun]

theorem string_append_left_cancel {p a b : String} (h : p ++ a = p ++ b) : a = b := by
  have h2 := congrArg String.data h
  rw [String.data_append, String.data_append] at h2
  exact String.ext (List.append_cancel_left h2)

theorem prefixed_keys_nodup (pfx : String) {l : List (String × String)}
    (hn : (l.map Prod.fst).Nodup) :
    ((l.map (fun kv => (pfx ++ kv.1, kv.2))).map Prod.fst).Nodup := by
  have hcomp : (l.map (fun kv => (pfx ++ kv.1, kv.2))).map Prod.fst
      = (l.map Prod.fst).map (fun k => pfx ++ k) := by
    rw [List.map_map, List.map_map]
    rfl
  rw [hcomp]
  exact List.Nodup.map (fun a b h => string_append_left_cancel h) hn

/-- Two `Resource` values that are equal as Go values: same id and type, and
label maps equal as maps (the association lists are permutations of one
another, with pairwise-distinct keys as every label map built by the
collector has). -/
def resourceGoEq (r1 r2 : Resource) : Prop :=
  r1.id = r2.id ∧ r1.resourceType = r2.resourceType ∧
    r1.labels.Perm r2.labels ∧ (r1.labels.map Prod.fst).Nodup

theorem encodeTarget_formatTarget_eq (ts : List String) (pfx : String)
    {r1 r2 : Resource} (h : resourceGoEq r1 r2) :
    encodeTarget (formatTarget ts pfx r1) = encodeTarget (formatTarget ts pfx r2) := by
  obtain ⟨hid, hty, hperm, hnd⟩ := h
  have hlab : encodeLabelObject (r1.labels.map (fun kv => (pfx ++ kv.1, kv.2)))
      = encodeLabelObject (r2.labels.map (fun kv => (pfx ++ kv.1, kv.2))) :=
    encodeLabelObject_eq_of_perm (hperm.map _) (prefixed_keys_nodup pfx hnd)
  unfold encodeTarget formatTarget
  simp only [hlab, hid, hty]

/-! ## Claim theorems -/

theorem cacheGet_eq_some {α : Type} {c : CacheMap α} {k : String} {item : Item α}
    (hc : c k = some item) (t : Int) :
    cacheGet c k t = if t > item.expiration then none else some item.value := by
  unfold cacheGet
  rw [hc]

theorem cacheGet_eq_none {α : Type} {c : CacheMap α} {k : String}
    (hc : c k = none) (t : Int) :
    cacheGet c k t = none := by
  unfold cacheGet
  rw [hc]

theorem cacheSet_self {α : Type} (c : CacheMap α) (k : String) (v : α)
    (now ttl : Int) :
    (cacheSet c k v now ttl) k = some ⟨v, now + ttl⟩ := by
  unfold cacheSet
  simp

theorem cacheDelete_self {α : Type} (c : CacheMap α) (k : String) :
    (cacheDelete c k) k = none := by
  unfold cacheDelete
  simp

/-- Claim C3: cache operation semantics — `set` then immediate `get` returns
the value; a `get` strictly after the TTL has elapsed reports not-found even
though the entry was not swept; `delete` then `get` reports not-found even
before the TTL elapses; `delete` on an absent key leaves the cache unchanged;
and no `get` ever returns a value whose expiry time has passed. -/
theorem C3_cache_semantics {α : Type} :
    (∀ (c : CacheMap α) (k : String) (v : α) (now ttl : Int), 0 < ttl →
        cacheGet (cacheSet c k v now ttl) k now = some v) ∧
    (∀ (c : CacheMap α) (k : String) (v : α) (now ttl t : Int), now + ttl < t →
        cacheGet (cacheSet c k v now ttl) k t = none) ∧
    (∀ (c : CacheMap α) (k : String) (t : Int),
        cacheGet (cacheDelete c k) k t = none) ∧
    (∀ (c : CacheMap α) (k : String), c k = none → cacheDelete c k = c) ∧
    (∀ (c : CacheMap α) (k : String) (t : Int) (v : α),
        cacheGet c k t = some v →
          ∃ item, c k = some item ∧ item.value = v ∧ t ≤ item.expiration) := by
  refine ⟨?_, ?_, ?_, ?_, ?_⟩
  · intro c k v now ttl h
    rw [cacheGet_eq_some (cacheSet_self c k v now ttl) now]
    have hno : ¬ now > now + ttl := by omega
    rw [if_neg hno]
  · intro c k v now ttl t h
    rw [cacheGet_eq_some (cacheSet_self c k v now ttl) t]
    rw [if_pos h]
  · intro c k t
    rw [cacheGet_eq_none (cacheDelete_self c k) t]
  · intro c k h
    funext k2
    by_cases hk : k2 = k
    · subst hk
      simp [cacheDelete, h]
    · simp [cacheDelete, hk]
  · intro c k t v h
    cases hc : c k with
    | none =>
        rw [cacheGet_eq_none hc t] at h
        cases h
    | some item =>
        rw [cacheGet_eq_some hc t] at h
        by_cases ht : t > item.expiration
        · rw [if_pos ht] at h
          cases h
        · rw [if_neg ht] at h
          exact ⟨item, rfl, Option.some.inj h, not_lt.mp ht⟩

/-- Claim C10: the expiry boundary is inclusive — a `get` performed when the
current time exactly equals the stored expiration still returns the value,
because expiry is tested with a strict greater-than comparison; an entry
becomes invisible only strictly after its expiry instant. -/
theorem C10_expiry_boundary_inclusive {α : Type} :
    (∀ (c : CacheMap α) (k : String) (item : Item α), c k = some item →
        cacheGet c k item.expiration = some item.value) ∧
    (∀ (c : CacheMap α) (k : String) (v : α) (now ttl : Int),
        cacheGet (cacheSet c k v now ttl) k (now + ttl) = some v) := by
  constructor
  · intro c k item h
    rw [cacheGet_eq_some h item.expiration]
    rw [if_neg (lt_irrefl item.expiration)]
  · intro c k v now ttl
    rw [cacheGet_eq_some (cacheSet_self c k v now ttl) (now + ttl)]
    rw [if_neg (lt_irrefl (now + ttl))]

/-- Claim C8: formatting determinism — `format(catalog, targets, prefix)` is
pure, and marshalling its result is byte-identical across two calls on the
same Go values: even when the label maps of the input catalog present their
entries in different iteration orders, the encoded responses agree, because
`encoding/json` emits map keys in sorted order. -/
theorem C8_formatting_determinism (rs1 rs2 : List Resource) (ts : List String)
    (pfx : String) (h : List.Forall₂ resourceGoEq rs1 rs2) :
    encodeResponse (formatResponse rs1 ts pfx)
      = encodeResponse (formatResponse rs2 ts pfx) := by
  unfold encodeResponse
  rw [formatResponse_eq_map, formatResponse_eq_map, List.map_map, List.map_map]
  have hmap : rs1.map (encodeTarget ∘ formatTarget ts pfx)
      = rs2.map (encodeTarget ∘ formatTarget ts pfx) := by
    induction h with
    | nil => rfl
    | cons hr _ ih =>
        simp only [List.map_cons, Function.comp_apply]
        rw [encodeTarget_formatTarget_eq ts pfx hr, ih]
  rw [hmap]

/-- Claim C6: catalog order determinism — on every successful collection pass
the catalog is the environment list in upstream order, and within each
environment the fixed kind order Kafka (each cluster's connectors nested
right after that cluster) → Schema Registry → KSQL → compute pools. -/
theorem C6_catalog_order (w : Fetches) (envs : List Environment)
    (henv : w.envs = Except.ok envs) :
    getAllResources w
      = Except.ok (envs.flatMap (fun env =>
          kafkaBlock w env ++ srBlock w env ++ ksqlBlock w env ++ poolBlock w env)) := by
  rw [getAllResources_ok w envs henv]
  rfl

/-- Claim C1: partial failure isolation — whenever the environment listing
succeeds, `collect()` returns success; each kind's per-environment
contribution to the catalog depends only on that kind's own sub-fetch for
that environment (so a failing sub-fetch cannot remove or alter resources of
other kinds or environments); and in the concrete scenario where one
environment's schema-registry sub-fetch fails while every other sub-fetch
succeeds, the catalog keeps every Kafka, connector, KSQL and compute-pool
resource of all environments plus the schema-registry resources of the
unaffected environments only. -/
theorem C1_partial_failure_isolation :
    (∀ (w : Fetches) (envs : List Environment), w.envs = Except.ok envs →
        ∃ catalog, getAllResources w = Except.ok catalog) ∧
    (∀ (w w' : Fetches) (env : Environment),
        w.kafkaClusters env.id = w'.kafkaClusters env.id →
        (∀ cid, w.connectors env.id cid = w'.connectors env.id cid) →
        kafkaBlock w env = kafkaBlock w' env) ∧
    (∀ (w w' : Fetches) (env : Environment),
        w.schemaRegistries env.id = w'.schemaRegistries env.id →
        srBlock w env = srBlock w' env) ∧
    (∀ (w w' : Fetches) (env : Environment),
        w.ksqlDBs env.id = w'.ksqlDBs env.id →
        ksqlBlock w env = ksqlBlock w' env) ∧
    (∀ (w w' : Fetches) (env : Environment),
        w.computePools env.id = w'.computePools env.id →
        poolBlock w env = poolBlock w' env) ∧
    (∀ (w : Fetches) (envs : List Environment) (badEnv err : String)
        (K : String → List KafkaCluster) (S : String → List SchemaRegistry)
        (Q : String → List KsqlDB) (P : String → List ComputePool)
        (C : String → String → List String),
        w.envs = Except.ok envs →
        (∀ id, w.kafkaClusters id = Except.ok (K id)) →
        (∀ eid cid, w.connectors eid cid = Except.ok (C eid cid)) →
        (∀ id, id ≠ badEnv → w.schemaRegistries id = Except.ok (S id)) →
        w.schemaRegistries badEnv = Except.error err →
        (∀ id, w.ksqlDBs id = Except.ok (Q id)) →
        (∀ id, w.computePools id = Except.ok (P id)) →
        getAllResources w
          = Except.ok (envs.flatMap (fun env =>
              (K env.id).flatMap (fun cluster =>
                kafkaResource env cluster ::
                  (C env.id cluster.id).map (connectorResource env cluster))
              ++ (if env.id = badEnv then []
                  else (S env.id).map (schemaRegistryResource env))
              ++ (Q env.id).map (ksqlResource env)
              ++ (P env.id).map (computePoolResource env)))) := by
  refine ⟨?_, ?_, ?_, ?_, ?_, ?_⟩
  · intro w envs h
    exact ⟨_, getAllResources_ok w envs h⟩
  · intro w w' env hk hc
    have hcb : clusterBlock w env = clusterBlock w' env := by
      funext cluster
      unfold clusterBlock
      rw [hc cluster.id]
    unfold kafkaBlock
    rw [hk, hcb]
  · intro w w' env h
    unfold srBlock
    rw [h]
  · intro w w' env h
    unfold ksqlBlock
    rw [h]
  · intro w w' env h
    unfold poolBlock
    rw [h]
  · intro w envs badEnv err K S Q P C henv hk hc hsr hsrBad hq hp
    rw [getAllResources_ok w envs henv]
    have hfun : environmentBlock w = fun env =>
        (K env.id).flatMap (fun cluster =>
          kafkaResource env cluster ::
            (C env.id cluster.id).map (connectorResource env cluster))
        ++ (if env.id = badEnv then []
            else (S env.id).map (schemaRegistryResource env))
        ++ (Q env.id).map (ksqlResource env)
        ++ (P env.id).map (computePoolResource env) := by
      funext env
      unfold environmentBlock kafkaBlock srBlock ksqlBlock poolBlock clusterBlock
      rw [hk env.id, hq env.id, hp env.id]
      by_cases hb : env.id = badEnv
      · rw [hb, hsrBad]
        simp [hc]
      · rw [hsr env.id hb]
        simp [hc, hb]
    rw [hfun]

/-- Claim C2: a failing environment listing is fatal and atomic —
`collect()` returns an error and no catalog, the handler leaves the cache
completely unchanged, a cold-cache discovery request answers 500, and a
still-valid prior entry keeps being served (200) until its own expiry. -/
theorem C2_fatal_env_listing (w : Fetches) (err : String)
    (henv : w.envs = Except.error err)
    (c : CacheMap (List Resource)) (now dur : Int) (tp pp : String)
    (htp : tp ≠ "") (hpp : (pp != "" && !prefixOk pp) = false) :
    getAllResources w = Except.error ("failed to fetch environments: " ++ err) ∧
    (discoveryHandler w c now dur tp pp).cacheAfter = c ∧
    (cacheGet c cacheKey now = none →
      (discoveryHandler w c now dur tp pp).status = 500) ∧
    (∀ v, cacheGet c cacheKey now = some v →
      (discoveryHandler w c now dur tp pp).status = 200) := by
  have hga : getAllResources w
      = Except.error ("failed to fetch environments: " ++ err) := by
    unfold getAllResources
    rw [henv]
  refine ⟨hga, ?_, ?_, ?_⟩
  · cases hmiss : cacheGet c cacheKey now with
    | none => simp [discoveryHandler, htp, hpp, hmiss, hga]
    | some v => simp [discoveryHandler, htp, hpp, hmiss]
  · intro hmiss
    simp [discoveryHandler, htp, hpp, hmiss, hga]
  · intro v hv
    simp [discoveryHandler, htp, hpp, hv]

/-- Claim C9: validation failures trigger no collection and leave the cache
unchanged — a missing/empty `targets` parameter or a non-empty prefix that
fails the charset check yields 400 with zero collector runs, no cache write,
and no formatted body, for every cache state including a cold one. -/
theorem C9_validation_no_side_effects (w : Fetches) (c : CacheMap (List Resource))
    (now dur : Int) (tp pp : String)
    (h : tp = "" ∨ (pp != "" && !prefixOk pp) = true) :
    (discoveryHandler w c now dur tp pp).status = 400 ∧
    (discoveryHandler w c now dur tp pp).collectorRuns = 0 ∧
    (discoveryHandler w c now dur tp pp).cacheAfter = c ∧
    (discoveryHandler w c now dur tp pp).groups = none := by
  rcases h with h | h
  · simp [discoveryHandler, h]
  · by_cases ht : tp = ""
    · simp [discoveryHandler, ht]
    · simp [discoveryHandler, ht, h]

/-- Claim C7: unknown-field defaulting — every record kind whose cloud field
is the empty string normalizes to `cloud_provider = "unknown"` (connectors
inherit the parent cluster's defaulted value), and the Schema Registry region
label is the string found under `"id"` in the nested region structure when
present and well-typed, `"unknown"` otherwise. -/
theorem C7_unknown_field_defaulting :
    (∀ env cluster, cluster.spec.cloud = "" →
        (kafkaResource env cluster).labels.lookup "cloud_provider" = some "unknown") ∧
    (∀ env sr, sr.spec.cloud = "" →
        (schemaRegistryResource env sr).labels.lookup "cloud_provider" = some "unknown") ∧
    (∀ env k, k.spec.cloud = "" →
        (ksqlResource env k).labels.lookup "cloud_provider" = some "unknown") ∧
    (∀ env p, p.spec.cloud = "" →
        (computePoolResource env p).labels.lookup "cloud_provider" = some "unknown") ∧
    (∀ env cluster name, cluster.spec.cloud = "" →
        (connectorResource env cluster name).labels.lookup "cloud_provider" = some "unknown") ∧
    (∀ env sr s, sr.spec.region.lookup "id" = some (JVal.str s) →
        (schemaRegistryResource env sr).labels.lookup "region" = some s) ∧
    (∀ env sr, sr.spec.region.lookup "id" = some JVal.other →
        (schemaRegistryResource env sr).labels.lookup "region" = some "unknown") ∧
    (∀ env sr, sr.spec.region.lookup "id" = none →
        (schemaRegistryResource env sr).labels.lookup "region" = some "unknown") := by
  refine ⟨?_, ?_, ?_, ?_, ?_, ?_, ?_, ?_⟩
  · intro env cluster h
    simp [kafkaResource, cloudOrUnknown, h, List.lookup]
  · intro env sr h
    simp [schemaRegistryResource, cloudOrUnknown, h, List.lookup]
  · intro env k h
    simp [ksqlResource, cloudOrUnknown, h, List.lookup]
  · intro env p h
    simp [computePoolResource, cloudOrUnknown, h, List.lookup]
  · intro env cluster name h
    simp [connectorResource, cloudOrUnknown, h, List.lookup]
  · intro env sr s h
    simp [schemaRegistryResource, srRegionString, h, List.lookup]
  · intro env sr h
    simp [schemaRegistryResource, srRegionString, h, List.lookup]
  · intro env sr h
    simp [schemaRegistryResource, srRegionString, h, List.lookup]

theorem empty_string_append (s : String) : "" ++ s = s := by
  apply String.ext
  rw [String.data_append]
  exact List.nil_append s.data

theorem formatResponse_labels (rs : List Resource) (ts : List String) (pfx : String) :
    List.Forall₂ (fun g r => g.labels = r.labels.map (fun kv => (pfx ++ kv.1, kv.2)))
      (formatResponse rs ts pfx) rs := by
  rw [formatResponse_eq_map]
  induction rs with
  | nil => exact List.Forall₂.nil
  | cons r rest ih => exact List.Forall₂.cons rfl ih

theorem formatTarget_params_unrecognized (ts : List String) (pfx : String)
    (r : Resource)
    (h1 : r.resourceType ≠ "kafka") (h2 : r.resourceType ≠ "schema_registry")
    (h3 : r.resourceType ≠ "ksql") (h4 : r.resourceType ≠ "compute_pool")
    (h5 : r.resourceType ≠ "connector") :
    (formatTarget ts pfx r).params = [] := by
  unfold formatTarget
  dsimp only
  split <;> simp_all

/-- Claim C4: parameter-key mapping — each emitted group's `params` is the
single entry from the resource kind's fixed key (kafka, schema_registry,
ksql, compute_pool, connector) to the one-element sequence holding the
resource id; an unrecognized kind yields an empty `params` mapping while the
(prefixed) labels are still emitted. -/
theorem C4_param_key_mapping (rs : List Resource) (ts : List String) (pfx : String) :
    List.Forall₂ (fun g r =>
        (r.resourceType = "kafka" →
          g.params = [("resource.kafka.id", [r.id])]) ∧
        (r.resourceType = "schema_registry" →
          g.params = [("resource.schema_registry.id", [r.id])]) ∧
        (r.resourceType = "ksql" →
          g.params = [("resource.ksql.id", [r.id])]) ∧
        (r.resourceType = "compute_pool" →
          g.params = [("resource.compute_pool.id", [r.id])]) ∧
        (r.resourceType = "connector" →
          g.params = [("resource.connector.id", [r.id])]) ∧
        (r.resourceType ∉
            (["kafka", "schema_registry", "ksql", "compute_pool", "connector"] :
              List String) →
          g.params = []) ∧
        g.labels = r.labels.map (fun kv => (pfx ++ kv.1, kv.2)))
      (formatResponse rs ts pfx) rs := by
  rw [formatResponse_eq_map]
  induction rs with
  | nil => exact List.Forall₂.nil
  | cons r rest ih =>
      refine List.Forall₂.cons ⟨?_, ?_, ?_, ?_, ?_, ?_, rfl⟩ ih
      · intro h
        simp [formatTarget, h]
      · intro h
        simp [formatTarget, h]
      · intro h
        simp [formatTarget, h]
      · intro h
        simp [formatTarget, h]
      · intro h
        simp [formatTarget, h]
      · intro h
        simp only [List.mem_cons, List.not_mem_nil, or_false, not_or] at h
        obtain ⟨h1, h2, h3, h4, h5⟩ := h
        exact formatTarget_params_unrecognized ts pfx r h1 h2 h3 h4 h5

/-- Claim C5: prefix normalization and validation — an empty prefix leaves
all label keys unchanged; a non-empty prefix failing the charset check makes
the request answer 400 before formatting runs; a valid non-empty prefix not
ending in an underscore gets one appended, so requests with prefix `cc` and
`cc_` produce identical outcomes and every label key has the form
`cc_<original key>`. -/
theorem C5_prefix_normalization :
    (∀ (rs : List Resource) (ts : List String),
        List.Forall₂ (fun g r => g.labels = r.labels)
          (formatResponse rs ts "") rs) ∧
    (∀ (w : Fetches) (c : CacheMap (List Resource)) (now dur : Int) (tp pp : String),
        pp ≠ "" → prefixOk pp = false →
          (discoveryHandler w c now dur tp pp).status = 400 ∧
          (discoveryHandler w c now dur tp pp).groups = none) ∧
    (∀ pp, pp ≠ "" → hasSuffixUnderscore pp = false → normPfx pp = pp ++ "_") ∧
    (∀ (w : Fetches) (c : CacheMap (List Resource)) (now dur : Int) (tp : String),
        discoveryHandler w c now dur tp "cc"
          = discoveryHandler w c now dur tp "cc_") ∧
    (∀ (rs : List Resource) (ts : List String),
        List.Forall₂
          (fun g r => g.labels = r.labels.map (fun kv => ("cc_" ++ kv.1, kv.2)))
          (formatResponse rs ts (normPfx "cc")) rs) := by
  refine ⟨?_, ?_, ?_, ?_, ?_⟩
  · intro rs ts
    refine (formatResponse_labels rs ts "").imp ?_
    intro g r h
    rw [h]
    have hfun : (fun kv : String × String => (("" : String) ++ kv.1, kv.2))
        = fun kv => kv := by
      funext kv
      rw [empty_string_append]
    rw [hfun]
    simp
  · intro w c now dur tp pp hne hbad
    have hb : (pp != "" && !prefixOk pp) = true := by
      simp [hne, hbad]
    by_cases ht : tp = ""
    · constructor <;> simp [discoveryHandler, ht]
    · constructor <;> simp [discoveryHandler, ht, hb]
  · intro pp hne hsuf
    unfold normPfx
    have hb : (pp != "" && !hasSuffixUnderscore pp) = true := by
      simp [hne, hsuf]
    rw [hb]
    rfl
  · intro w c now dur tp
    have h1 : (("cc" : String) != "" && !prefixOk "cc") = false := by decide
    have h2 : (("cc_" : String) != "" && !prefixOk "cc_") = false := by decide
    have h3 : normPfx "cc" = normPfx "cc_" := by decide
    simp only [discoveryHandler, h1, h2, h3]
  · intro rs ts
    have hcc : normPfx "cc" = "cc_" := by decide
    rw [hcc]
    exact formatResponse_labels rs ts "cc_"

/-! ## Concrete sample data for the witnesses -/

def envProd : Environment := ⟨"env-1", "prod"⟩

def envStaging : Environment := ⟨"env-2", "staging"⟩

def clusterMain : KafkaCluster :=
  ⟨"lkc-1", ⟨"main", "SINGLE_ZONE", "aws", "us-west-2"⟩, "env-1"⟩

def srMain : SchemaRegistry :=
  ⟨"lsrc-1", ⟨"sr-main", "aws", [("id", JVal.str "us-west-2")], "essentials"⟩, "env-1"⟩

def ksqlMain : KsqlDB := ⟨"lksqlc-1", ⟨"ksql-main", "aws", "us-west-2"⟩, "env-1"⟩

def poolMain : ComputePool := ⟨"lfcp-1", ⟨"pool-main", "aws", "us-west-2"⟩, "env-1"⟩

def wK : String → List KafkaCluster :=
  fun id => if id = "env-1" then [clusterMain] else []

def wS : String → List SchemaRegistry :=
  fun id => if id = "env-1" then [srMain] else []

def wQ : String → List KsqlDB :=
  fun id => if id = "env-1" then [ksqlMain] else []

def wP : String → List ComputePool :=
  fun id => if id = "env-1" then [poolMain] else []

def wC : String → String → List String :=
  fun eid cid => if eid = "env-1" && cid = "lkc-1" then ["conn-1"] else []

/-- A sample upstream world: two environments, one cluster with one
connector, and a failing schema-registry sub-fetch for `env-2`. -/
def sampleWorld : Fetches :=
  { envs := Except.ok [envProd, envStaging]
    kafkaClusters := fun id => Except.ok (wK id)
    schemaRegistries := fun id =>
      if id = "env-2" then Except.error "boom" else Except.ok (wS id)
    ksqlDBs := fun id => Except.ok (wQ id)
    computePools := fun id => Except.ok (wP id)
    connectors := fun eid cid => Except.ok (wC eid cid) }

/-- A sample world whose environment listing fails. -/
def failWorld : Fetches :=
  { envs := Except.error "conn refused"
    kafkaClusters := fun _ => Except.ok []
    schemaRegistries := fun _ => Except.ok []
    ksqlDBs := fun _ => Except.ok []
    computePools := fun _ => Except.ok []
    connectors := fun _ _ => Except.ok [] }

def emptyCache : CacheMap (List Resource) := fun _ => none

def emptyNatCache : CacheMap Nat := fun _ => none

def oneItemCache : CacheMap Nat :=
  fun k => if k = "k" then some ⟨7, 50⟩ else none

def rsPermA : List Resource :=
  [{ id := "lkc-1", resourceType := "kafka",
     labels := [("cloud_provider", "aws"), ("environment_name", "prod")] }]

def rsPermB : List Resource :=
  [{ id := "lkc-1", resourceType := "kafka",
     labels := [("environment_name", "prod"), ("cloud_provider", "aws")] }]

/-! ## Witnesses -/

/-- Witness for C1 at the sample world: the schema-registry sub-fetch of
`env-2` fails, every other sub-fetch succeeds, and the catalog equation of
the theorem holds. -/
theorem C1_witness :
    sampleWorld.envs = Except.ok [envProd, envStaging] ∧
    sampleWorld.schemaRegistries "env-2" = Except.error "boom" ∧
    getAllResources sampleWorld
      = Except.ok ([envProd, envStaging].flatMap (fun env =>
          (wK env.id).flatMap (fun cluster =>
            kafkaResource env cluster ::
              (wC env.id cluster.id).map (connectorResource env cluster))
          ++ (if env.id = "env-2" then []
              else (wS env.id).map (schemaRegistryResource env))
          ++ (wQ env.id).map (ksqlResource env)
          ++ (wP env.id).map (computePoolResource env))) :=
  ⟨rfl, by simp [sampleWorld],
   C1_partial_failure_isolation.2.2.2.2.2 sampleWorld [envProd, envStaging]
     "env-2" "boom" wK wS wQ wP wC rfl (fun _ => rfl) (fun _ _ => rfl)
     (fun id h => by simp [sampleWorld, h]) (by simp [sampleWorld])
     (fun _ => rfl) (fun _ => rfl)⟩

/-- Witness for C2 at a world with a failing environment listing and a cold
cache. -/
theorem C2_witness :
    ("m:443" : String) ≠ "" ∧
    getAllResources failWorld
      = Except.error ("failed to fetch environments: " ++ "conn refused") ∧
    (discoveryHandler failWorld emptyCache 0 1800 "m:443" "").cacheAfter
      = emptyCache ∧
    (discoveryHandler failWorld emptyCache 0 1800 "m:443" "").status = 500 := by
  have h := C2_fatal_env_listing failWorld "conn refused" rfl emptyCache 0 1800
    "m:443" "" (by decide) (by decide)
  exact ⟨by decide, h.1, h.2.1, h.2.2.1 rfl⟩

/-- Witness for C3 at concrete cache states and times. -/
theorem C3_witness :
    (0 : Int) < 5 ∧
    cacheGet (cacheSet emptyNatCache "k" 42 100 5) "k" 100 = some 42 ∧
    cacheGet (cacheSet emptyNatCache "k" 42 100 5) "k" 106 = none ∧
    cacheGet (cacheDelete (cacheSet emptyNatCache "k" 42 100 5) "k") "k" 100 = none ∧
    cacheDelete emptyNatCache "k" = emptyNatCache :=
  ⟨by norm_num,
   C3_cache_semantics.1 emptyNatCache "k" 42 100 5 (by norm_num),
   C3_cache_semantics.2.1 emptyNatCache "k" 42 100 5 106 (by norm_num),
   C3_cache_semantics.2.2.1 (cacheSet emptyNatCache "k" 42 100 5) "k" 100,
   C3_cache_semantics.2.2.2.1 emptyNatCache "k" rfl⟩

/-- Witness for C4 at a concrete catalog. -/
theorem C4_witness :
    List.Forall₂ (fun g r =>
        (r.resourceType = "kafka" →
          g.params = [("resource.kafka.id", [r.id])]) ∧
        (r.resourceType = "schema_registry" →
          g.params = [("resource.schema_registry.id", [r.id])]) ∧
        (r.resourceType = "ksql" →
          g.params = [("resource.ksql.id", [r.id])]) ∧
        (r.resourceType = "compute_pool" →
          g.params = [("resource.compute_pool.id", [r.id])]) ∧
        (r.resourceType = "connector" →
          g.params = [("resource.connector.id", [r.id])]) ∧
        (r.resourceType ∉
            (["kafka", "schema_registry", "ksql", "compute_pool", "connector"] :
              List String) →
          g.params = []) ∧
        g.labels = r.labels.map (fun kv => ("cc_" ++ kv.1, kv.2)))
      (formatResponse rsPermA ["m:443"] "cc_") rsPermA :=
  C4_param_key_mapping rsPermA ["m:443"] "cc_"

/-- Witness for C5 at concrete prefixes, a concrete rejected request and a
concrete pair of equivalent requests. -/
theorem C5_witness :
    ("bad-prefix" : String) ≠ "" ∧
    prefixOk "bad-prefix" = false ∧
    (discoveryHandler failWorld emptyCache 0 1800 "m:443" "bad-prefix").status = 400 ∧
    discoveryHandler sampleWorld emptyCache 0 1800 "m:443" "cc"
      = discoveryHandler sampleWorld emptyCache 0 1800 "m:443" "cc_" ∧
    normPfx "cc" = "cc" ++ "_" :=
  ⟨by decide, by decide,
   (C5_prefix_normalization.2.1 failWorld emptyCache 0 1800 "m:443" "bad-prefix"
     (by decide) (by decide)).1,
   C5_prefix_normalization.2.2.2.1 sampleWorld emptyCache 0 1800 "m:443",
   C5_prefix_normalization.2.2.1 "cc" (by decide) (by decide)⟩

/-- Witness for C6 at the sample world. -/
theorem C6_witness :
    sampleWorld.envs = Except.ok [envProd, envStaging] ∧
    getAllResources sampleWorld
      = Except.ok ([envProd, envStaging].flatMap (fun env =>
          kafkaBlock sampleWorld env ++ srBlock sampleWorld env ++
            ksqlBlock sampleWorld env ++ poolBlock sampleWorld env)) :=
  ⟨rfl, C6_catalog_order sampleWorld [envProd, envStaging] rfl⟩

/-- Witness for C7 at concrete records with empty cloud fields and the three
region shapes. -/
theorem C7_witness :
    (kafkaResource envProd
        ⟨"lkc-9", ⟨"c9", "SINGLE_ZONE", "", "us-east-1"⟩, "env-1"⟩).labels.lookup
        "cloud_provider" = some "unknown" ∧
    (connectorResource envProd
        ⟨"lkc-9", ⟨"c9", "SINGLE_ZONE", "", "us-east-1"⟩, "env-1"⟩
        "conn-9").labels.lookup "cloud_provider" = some "unknown" ∧
    (schemaRegistryResource envProd srMain).labels.lookup "region"
      = some "us-west-2" ∧
    (schemaRegistryResource envProd
        ⟨"lsrc-2", ⟨"sr2", "gcp", [("id", JVal.other)], ""⟩, "env-1"⟩).labels.lookup
        "region" = some "unknown" ∧
    (schemaRegistryResource envProd
        ⟨"lsrc-3", ⟨"sr3", "gcp", [], ""⟩, "env-1"⟩).labels.lookup
        "region" = some "unknown" :=
  ⟨C7_unknown_field_defaulting.1 envProd _ rfl,
   C7_unknown_field_defaulting.2.2.2.2.1 envProd _ "conn-9" rfl,
   C7_unknown_field_defaulting.2.2.2.2.2.1 envProd srMain "us-west-2" rfl,
   C7_unknown_field_defaulting.2.2.2.2.2.2.1 envProd _ rfl,
   C7_unknown_field_defaulting.2.2.2.2.2.2.2 envProd _ rfl⟩

/-- Witness for C8: two presentations of the same catalog whose label lists
are permutations of each other encode to the same bytes. -/
theorem C8_witness :
    List.Forall₂ resourceGoEq rsPermA rsPermB ∧
    encodeResponse (formatResponse rsPermA ["m:443"] "cc_")
      = encodeResponse (formatResponse rsPermB ["m:443"] "cc_") := by
  have hf : List.Forall₂ resourceGoEq rsPermA rsPermB := by
    refine List.Forall₂.cons ⟨rfl, rfl, ?_, ?_⟩ List.Forall₂.nil
    · decide
    · decide
  exact ⟨hf, C8_formatting_determinism rsPermA rsPermB ["m:443"] "cc_" hf⟩

/-- Witness for C9 at a cold cache and an empty targets parameter. -/
theorem C9_witness :
    (discoveryHandler sampleWorld emptyCache 0 1800 "" "cc").status = 400 ∧
    (discoveryHandler sampleWorld emptyCache 0 1800 "" "cc").collectorRuns = 0 ∧
    (discoveryHandler sampleWorld emptyCache 0 1800 "" "cc").cacheAfter
      = emptyCache ∧
    (discoveryHandler sampleWorld emptyCache 0 1800 "" "cc").groups = none :=
  C9_validation_no_side_effects sampleWorld emptyCache 0 1800 "" "cc" (Or.inl rfl)

/-- Witness for C10 at a concrete entry whose expiration instant is probed
exactly. -/
theorem C10_witness :
    oneItemCache "k" = some ⟨7, 50⟩ ∧
    cacheGet oneItemCache "k" 50 = some 7 ∧
    cacheGet (cacheSet emptyNatCache "k" 9 40 10) "k" 50 = some 9 := by
  have h1 : oneItemCache "k" = some ⟨7, 50⟩ := by simp [oneItemCache]
  exact ⟨h1,
    C10_expiry_boundary_inclusive.1 oneItemCache "k" ⟨7, 50⟩ h1,
    C10_expiry_boundary_inclusive.2 emptyNatCache "k" 9 40 10⟩
